import Mathlib

/-!
# Home route of the secret-sharing client (`src/client/routes/home/index.jsx`)

A shallow embedding of the `Home` component's state and of its event handlers
`onSubmit`, `onBurn`, `onNewSecret`, `reset`, `onEnablePassword` (with the effect
on `enablePassword`), `removeFile` and `getSecretURL`.

* The React state hooks and the form object become one record, `State`; each
  handler is a function from the state before the event to the state after it.
* The imported helpers (`generateKey`, `encrypt`, `zipFiles`, `createSecret`,
  the translation function `t`, `window.location.origin`) are not part of the
  file; they are the fields of `Env`.  A handler returns, next to the new
  state, the list of helper calls it made, in program order.
* JavaScript strings are `String`; a value that is only tested for truthiness
  (`zipFile`) is an `Option`, `none` standing for a falsy result.
* Arrays are lists in `State`; where the identity of an array matters
  (`removeFile` splices a copy), `removeFileInMemory` gives the same handler on
  array references.
-/

namespace Hemmelig

/-- The constant `DEFAULT_TTL` (3 days, in seconds). -/
def DEFAULT_TTL : Nat := 259200

/-- A user-selected file, as held in `form.values.files`. -/
structure File where
  name : String
  content : String
deriving DecidableEq, Repr

/-- The values of the form created by `useForm`. -/
structure FormValues where
  text : String
  title : String
  maxViews : Nat
  files : List File
  password : String
  ttl : Nat
  allowedIp : String
  preventBurn : Bool
deriving DecidableEq, Repr

/-- The `initialValues` passed to `useForm`. -/
def initialValues : FormValues :=
  { text := "", title := "", maxViews := 1, files := [], password := "",
    ttl := DEFAULT_TTL, allowedIp := "", preventBurn := false }

/-- The form object: its values and its field errors (field name, message). -/
structure Form where
  values : FormValues
  errors : List (String × String)
deriving DecidableEq, Repr

/-- The call `form.setErrors(e)`: the error object is replaced by `e`. -/
def Form.setErrors (form : Form) (e : List (String × String)) : Form :=
  { form with errors := e }

/-- The call `form.clearErrors()`. -/
def Form.clearErrors (form : Form) : Form :=
  { form with errors := [] }

/-- The call `form.reset()`: initial values, no errors. -/
def Form.reset (_form : Form) : Form :=
  { values := initialValues, errors := [] }

/-- The state of the `Home` component: the form and the seven `useState` cells. -/
structure State where
  form : Form
  text : String
  ttl : Nat
  enablePassword : Bool
  secretId : String
  encryptionKey : String
  creatingSecret : Bool
  error : String
deriving DecidableEq, Repr

/-- The state of the first render. -/
def initialState : State :=
  { form := { values := initialValues, errors := [] }, text := "", ttl := DEFAULT_TTL,
    enablePassword := false, secretId := "", encryptionKey := "",
    creatingSecret := false, error := "" }

/-- One entry of `body.files`. -/
structure FileEntry where
  type : String
  ext : String
  content : String
deriving DecidableEq, Repr

/-- The request body built by `onSubmit` and handed to `createSecret`. -/
structure Body where
  text : String
  files : List FileEntry
  title : String
  password : String
  ttl : Nat
  allowedIp : String
  preventBurn : Bool
  maxViews : Nat
deriving DecidableEq, Repr

/-- The decoded answer of `createSecret`: the fields `onSubmit` reads. -/
structure Response where
  statusCode : Nat
  id : String
  error : String
  message : String
deriving DecidableEq, Repr

/-- A call to one of the imported helpers, with its arguments. -/
inductive Call where
  | generateKey (password : String)
  | encrypt (text key : String)
  | zipFiles (files : List File)
  | createSecret (body : Body)
  | burnSecret (secretId : String)
deriving DecidableEq, Repr

/-- The helpers the component imports, as they answer during one event. -/
structure Env where
  origin : String
  t : String → String
  generateKey : String → String
  encrypt : String → String → String
  zipFiles : List File → Option String
  createSecret : Body → Response

/-- The handler `reset`. -/
def reset (s : State) : State :=
  let form := s.form.reset
  let form := form.clearErrors
  { form := form, text := "", ttl := DEFAULT_TTL, enablePassword := false,
    secretId := "", encryptionKey := "", creatingSecret := false, error := "" }

/-- The handler `onSubmit`: the state after the handler has run to its end, and
the helper calls it made. -/
def onSubmit (env : Env) (s : State) : State × List Call :=
  if s.form.values.text = "" then
    ({ s with form := s.form.setErrors [("text", env.t "home.please_add_secret")] }, [])
  else
    let password := s.form.values.password
    let publicEncryptionKey := env.generateKey password
    let encryptionKey := publicEncryptionKey ++ password
    -- setCreatingSecret(true)
    let s1 := { s with creatingSecret := true }
    let body : Body :=
      { text := env.encrypt s.form.values.text encryptionKey
        files := []
        title := env.encrypt s.form.values.title encryptionKey
        password := s.form.values.password
        ttl := s.form.values.ttl
        allowedIp := s.form.values.allowedIp
        preventBurn := s.form.values.preventBurn
        maxViews := s.form.values.maxViews }
    let calls : List Call :=
      [Call.generateKey password,
       Call.encrypt s.form.values.text encryptionKey,
       Call.encrypt s.form.values.title encryptionKey,
       Call.zipFiles s.form.values.files]
    let zipFile := env.zipFiles s.form.values.files
    let (body, calls) :=
      match zipFile with
      | some zip =>
          ({ body with
              files := body.files ++
                [{ type := "application/zip", ext := ".zip",
                   content := env.encrypt zip encryptionKey }] },
           calls ++ [Call.encrypt zip encryptionKey])
      | none => (body, calls)
    let json := env.createSecret body
    let calls := calls ++ [Call.createSecret body]
    if json.statusCode ≠ 201 then
      let s2 := if json.statusCode = 403 then { s1 with error := json.error } else s1
      let s3 :=
        if json.message = "request file too large, please check multipart config" then
          { s2 with form := s2.form.setErrors [("files", "The file size is too large")] }
        else
          { s2 with form := s2.form.setErrors [("files", json.error)] }
      ({ s3 with creatingSecret := false }, calls)
    else
      ({ s1 with
          secretId := json.id
          encryptionKey := publicEncryptionKey
          form := s1.form.clearErrors
          creatingSecret := false }, calls)

/-- The handler `onNewSecret`. -/
def onNewSecret (s : State) : State :=
  reset s

/-- The handler `onBurn`: the state after it, and the helper calls it made. -/
def onBurn (s : State) : State × List Call :=
  if s.secretId = "" then
    (s, [])
  else
    (reset s, [Call.burnSecret s.secretId])

/-- The function `getSecretURL(withEncryptionKey)`; the source's default for the
argument is `true`. -/
def getSecretURL (env : Env) (s : State) (withEncryptionKey : Bool) : String :=
  if !withEncryptionKey then
    env.origin ++ "/secret/" ++ s.secretId
  else
    env.origin ++ "/secret/" ++ s.secretId ++ "#encryption_key=" ++ s.encryptionKey

/-- The call `form.setFieldValue('password', v)`: the value is replaced and, as
the form is created without `clearInputErrorOnChange: false`, the error of the
field is dropped. -/
def Form.setFieldValuePassword (form : Form) (v : String) : Form :=
  { values := { form.values with password := v }
    errors := form.errors.filter fun e => e.1 != "password" }

/-- The call `form.setFieldValue('files', v)`, likewise. -/
def Form.setFieldValueFiles (form : Form) (v : List File) : Form :=
  { values := { form.values with files := v }
    errors := form.errors.filter fun e => e.1 != "files" }

/-- The handler `onEnablePassword`. -/
def onEnablePassword (s : State) : State :=
  { s with enablePassword := !s.enablePassword }

/-- The effect on `[enablePassword]`, which runs after a render in which
`enablePassword` has changed; `generated` is what `passwordGenerator.generate`
returns when it is called. -/
def enablePasswordEffect (generated : String) (s : State) : State :=
  if s.enablePassword then
    { s with form := s.form.setFieldValuePassword generated }
  else
    { s with form := s.form.setFieldValuePassword "" }

/-- A click on the password checkbox: `onEnablePassword`, then the effect of the
render that follows. -/
def togglePassword (generated : String) (s : State) : State :=
  enablePasswordEffect generated (onEnablePassword s)

/-- The array method `splice(start, deleteCount)`: the array as it is left. A
negative `start` counts from the end, and both arguments are clamped to the
array. -/
def splice {α : Type} (xs : List α) (start : Int) (deleteCount : Nat) : List α :=
  let len := xs.length
  let actualStart : Nat := if start < 0 then (len + start).toNat else min start.toNat len
  let actualDeleteCount : Nat := min deleteCount (len - actualStart)
  xs.take actualStart ++ xs.drop (actualStart + actualDeleteCount)

/-- The handler `removeFile`: the spliced list is a copy, `[...form.values.files]`. -/
def removeFile (s : State) (index : Int) : State :=
  let updatedFiles := s.form.values.files
  let updatedFiles := splice updatedFiles index 1
  { s with form := s.form.setFieldValueFiles updatedFiles }

/-- The arrays of the page, by address: JavaScript arrays are objects, and
`form.values.files` holds a reference to one of them. -/
structure ArrayMemory where
  arrays : List (List File)
  files : Nat
deriving DecidableEq, Repr

/-- The array at address `a` (empty when nothing is allocated there). -/
def ArrayMemory.read (m : ArrayMemory) (a : Nat) : List File :=
  (m.arrays[a]?).getD []

/-- The handler `removeFile` on references: the spread `[...form.values.files]`
allocates a new array with the same elements, `splice` changes that new array in
place, and `setFieldValue` makes `form.values.files` refer to it. -/
def removeFileInMemory (m : ArrayMemory) (index : Int) : ArrayMemory :=
  -- const updatedFiles = [...form.values.files]
  let updatedFiles := m.arrays.length
  let arrays := m.arrays ++ [m.read m.files]
  -- updatedFiles.splice(index, 1)
  let arrays := arrays.set updatedFiles (splice ((arrays[updatedFiles]?).getD []) index 1)
  -- form.setFieldValue('files', updatedFiles)
  { arrays := arrays, files := updatedFiles }

/-- The bodies handed to `createSecret` in a list of calls, in order. -/
def createSecretCalls : List Call → List Body
  | [] => []
  | Call.createSecret b :: cs => b :: createSecretCalls cs
  | _ :: cs => createSecretCalls cs

/-- The body `onSubmit` has assembled when it calls `createSecret` (text
non-empty), written out in one piece; `onSubmit_fst` and `onSubmit_snd` relate it
to `onSubmit`. -/
def submittedBody (env : Env) (s : State) : Body :=
  let key := env.generateKey s.form.values.password ++ s.form.values.password
  { text := env.encrypt s.form.values.text key
    files :=
      match env.zipFiles s.form.values.files with
      | some zip => [{ type := "application/zip", ext := ".zip", content := env.encrypt zip key }]
      | none => []
    title := env.encrypt s.form.values.title key
    password := s.form.values.password
    ttl := s.form.values.ttl
    allowedIp := s.form.values.allowedIp
    preventBurn := s.form.values.preventBurn
    maxViews := s.form.values.maxViews }

/-- The calls `onSubmit` makes before `createSecret` (text non-empty). -/
def callsBeforeCreate (env : Env) (s : State) : List Call :=
  let key := env.generateKey s.form.values.password ++ s.form.values.password
  [Call.generateKey s.form.values.password,
   Call.encrypt s.form.values.text key,
   Call.encrypt s.form.values.title key,
   Call.zipFiles s.form.values.files] ++
  match env.zipFiles s.form.values.files with
  | some zip => [Call.encrypt zip key]
  | none => []

/-- The part of `onSubmit` after `createSecret` has answered `json`, for the key
`publicEncryptionKey` of the attempt. -/
def afterResponse (s : State) (publicEncryptionKey : String) (json : Response) : State :=
  if json.statusCode ≠ 201 then
    { s with
        error := if json.statusCode = 403 then json.error else s.error
        form := s.form.setErrors
          [("files",
            if json.message = "request file too large, please check multipart config" then
              "The file size is too large"
            else json.error)]
        creatingSecret := false }
  else
    { s with
        secretId := json.id
        encryptionKey := publicEncryptionKey
        form := s.form.clearErrors
        creatingSecret := false }

/-- The string `p` occurs in the string `s` as a contiguous substring. -/
def containsSubstr (s p : String) : Prop :=
  p.data <:+: s.data

instance (s p : String) : Decidable (containsSubstr s p) := by
  unfold containsSubstr; infer_instance

/-- A sample environment: a fixed key, a tagging cipher, an archive exactly when
files are selected, and a server that answers 201 with id `abc123`. -/
def sampleEnv : Env :=
  { origin := "https://example.org"
    t := fun k => k
    generateKey := fun _ => "k3y"
    encrypt := fun text key => "enc(" ++ text ++ "," ++ key ++ ")"
    zipFiles := fun files => if files = [] then none else some "ZIP"
    createSecret := fun _ => { statusCode := 201, id := "abc123", error := "", message := "" } }

/-- A state with a secret typed in and a password set. -/
def sampleState : State :=
  { initialState with
      form := { values := { initialValues with text := "hello", password := "hunter2" },
                errors := [] }
      text := "hello"
      enablePassword := true }

/-- The sample environment with a server that answers `r` to every request. -/
def sampleEnvWith (r : Response) : Env :=
  { sampleEnv with createSecret := fun _ => r }

/-- The sample state with one file selected. -/
def sampleStateWithFile : State :=
  { sampleState with
      form := { sampleState.form with
        values := { sampleState.form.values with
          files := [{ name := "a.txt", content := "A" }] } } }

/-- The sample state with another password. -/
def sampleStateOtherPassword : State :=
  { sampleState with
      form := { sampleState.form with
        values := { sampleState.form.values with password := "correct horse" } } }

/-- A 403 answer as the HTTP framework words it: `error` names the status,
`message` carries the explanation. -/
def forbiddenResponse : Response :=
  { statusCode := 403, id := "", error := "Forbidden",
    message := "sign in to use this lifetime" }

/-- A 500 answer whose `error` and `message` differ. -/
def failureResponse : Response :=
  { statusCode := 500, id := "", error := "Internal Server Error",
    message := "database unavailable" }

/-- A 413 answer with the multipart plugin's message. -/
def tooLargeResponse : Response :=
  { statusCode := 413, id := "", error := "Payload Too Large",
    message := "request file too large, please check multipart config" }

/-- A state with a secret typed in and password protection off. -/
def sampleStateNoPassword : State :=
  { initialState with
      form := { values := { initialValues with text := "hello" }, errors := [] }
      text := "hello" }

/-- A state showing a created secret. -/
def sampleStateRevealed : State :=
  { sampleState with
      secretId := "abc123"
      encryptionKey := "k3y"
      form := { sampleState.form with errors := [("files", "old")] }
      error := "old" }

/-- A state with three files selected. -/
def sampleStateThreeFiles : State :=
  { initialState with
      form := { initialState.form with
        values := { initialValues with
          files := [{ name := "a", content := "A" }, { name := "b", content := "B" },
                    { name := "c", content := "C" }] } } }

/-- The sample state with one file selected and another password. -/
def sampleStateWithFileOtherPassword : State :=
  { sampleStateWithFile with
      form := { sampleStateWithFile.form with
        values := { sampleStateWithFile.form.values with password := "correct horse" } } }

/-- The sample environment with the key generator answering `key` and a
cipher that ignores its key. -/
def sampleEnvKeyless (key : String) : Env :=
  { sampleEnv with
      generateKey := fun _ => key
      encrypt := fun text _ => "enc(" ++ text ++ ")" }

/-- A memory with two arrays, the second one being the three selected files. -/
def sampleMemory : ArrayMemory :=
  { arrays := [[], sampleStateThreeFiles.form.values.files], files := 1 }

/-! ## Shared lemmas -/

theorem createSecretCalls_append (xs ys : List Call) :
    createSecretCalls (xs ++ ys) = createSecretCalls xs ++ createSecretCalls ys := by
  induction xs with
  | nil => rfl
  | cons x xs ih => cases x <;> simp [createSecretCalls, ih]

theorem onSubmit_snd (env : Env) (s : State) (h : s.form.values.text ≠ "") :
    (onSubmit env s).2 = callsBeforeCreate env s ++ [Call.createSecret (submittedBody env s)] := by
  unfold onSubmit submittedBody callsBeforeCreate
  rw [if_neg h]
  cases env.zipFiles s.form.values.files <;> dsimp only <;> split <;> simp

theorem onSubmit_fst (env : Env) (s : State) (h : s.form.values.text ≠ "") :
    (onSubmit env s).1
      = afterResponse s (env.generateKey s.form.values.password)
          (env.createSecret (submittedBody env s)) := by
  unfold onSubmit submittedBody afterResponse
  rw [if_neg h]
  cases env.zipFiles s.form.values.files <;> dsimp only [List.nil_append] <;>
    generalize env.createSecret _ = json <;>
    by_cases h201 : json.statusCode = 201 <;>
    by_cases h403 : json.statusCode = 403 <;>
    by_cases hmsg : json.message = "request file too large, please check multipart config" <;>
    simp [h201, h403, hmsg, Form.setErrors, Form.clearErrors]

theorem createSecretCalls_callsBeforeCreate (env : Env) (s : State) :
    createSecretCalls (callsBeforeCreate env s) = [] := by
  unfold callsBeforeCreate
  cases env.zipFiles s.form.values.files <;> simp [createSecretCalls]

theorem createSecretCalls_onSubmit (env : Env) (s : State) (h : s.form.values.text ≠ "") :
    createSecretCalls (onSubmit env s).2 = [submittedBody env s] := by
  rw [onSubmit_snd env s h, createSecretCalls_append, createSecretCalls_callsBeforeCreate]
  simp [createSecretCalls]

theorem mem_onSubmit_createSecret (env : Env) (s : State) (h : s.form.values.text ≠ "")
    (b : Body) : Call.createSecret b ∈ (onSubmit env s).2 ↔ b = submittedBody env s := by
  rw [onSubmit_snd env s h]
  unfold callsBeforeCreate
  cases env.zipFiles s.form.values.files <;> simp

theorem ne_append_of_ne_empty (a b : String) (hb : b ≠ "") : a ≠ a ++ b := by
  intro hab
  apply hb
  have hl := congrArg String.length hab
  rw [String.length_append] at hl
  have h0 : b.length = 0 := by omega
  exact String.ext (List.length_eq_zero.mp h0)

theorem infix_of_infix_append_cons {α : Type} {p a b : List α} {c : α} (hc : c ∉ p)
    (h : p <:+: a ++ c :: b) : p <:+: a ∨ p <:+: b := by
  obtain ⟨u, v, huv⟩ := h
  rcases List.append_eq_append_iff.mp huv with ⟨w, ha, _⟩ | ⟨w, hup, hcb⟩
  · exact Or.inl ⟨u, w, ha.symm⟩
  · cases w with
    | nil =>
      refine Or.inl ⟨u, [], ?_⟩
      simpa using hup
    | cons x w =>
      simp only [List.cons_append, List.cons.injEq] at hcb
      obtain ⟨hx, hb⟩ := hcb
      subst hx
      rcases List.append_eq_append_iff.mp hup with ⟨z, _, hp⟩ | ⟨z, _, hz⟩
      · exact absurd (by simp [hp]) hc
      · cases z with
        | nil => exact absurd (by simp at hz; simp [← hz]) hc
        | cons y z =>
          simp only [List.cons_append, List.cons.injEq] at hz
          exact Or.inr ⟨z, v, by rw [hb, hz.2]⟩

theorem containsSubstr_path_iff (origin secretId p : String) (hp : '/' ∉ p.data)
    (hlen : 6 < p.length) :
    containsSubstr (origin ++ "/secret/" ++ secretId) p ↔
      containsSubstr origin p ∨ containsSubstr secretId p := by
  unfold containsSubstr
  have hsec : "/secret/".data = '/' :: (['s', 'e', 'c', 'r', 'e', 't'] ++ '/' :: []) := rfl
  constructor
  · intro h
    simp only [String.data_append, hsec, List.append_assoc, List.cons_append,
      List.nil_append] at h
    rcases infix_of_infix_append_cons hp h with h1 | h2
    · exact Or.inl h1
    · have h2' : p.data <:+: ['s', 'e', 'c', 'r', 'e', 't'] ++ '/' :: secretId.data := by
        simpa using h2
      rcases infix_of_infix_append_cons hp h2' with h3 | h4
      · have := h3.length_le
        simp only [List.length_cons, List.length_nil] at this
        have hl : p.data.length = p.length := rfl
        omega
      · exact Or.inr h4
  · rintro (⟨u, v, h⟩ | ⟨u, v, h⟩)
    · exact ⟨u, v ++ "/secret/".data ++ secretId.data, by simp [← h]⟩
    · exact ⟨origin.data ++ "/secret/".data ++ u, v, by simp [← h]⟩

/-! ## Submission with an empty text -/

/-- C1: when the form's text field is empty, `onSubmit` calls none of the helpers
(no key generation, no encryption, no archiving, no create-secret request), puts
the translated validation message on the `text` field, and leaves `secretId`, the
displayed encryption key and `creatingSecret` as they were. -/
theorem C1_onSubmit_empty_text (env : Env) (s : State) (h : s.form.values.text = "") :
    (onSubmit env s).2 = [] ∧
    (onSubmit env s).1.form.errors = [("text", env.t "home.please_add_secret")] ∧
    (onSubmit env s).1.secretId = s.secretId ∧
    (onSubmit env s).1.encryptionKey = s.encryptionKey ∧
    (onSubmit env s).1.creatingSecret = s.creatingSecret := by
  simp [onSubmit, h, Form.setErrors]

theorem C1_onSubmit_empty_text_witness :
    (onSubmit sampleEnv initialState).2 = [] ∧
    (onSubmit sampleEnv initialState).1.form.errors
      = [("text", sampleEnv.t "home.please_add_secret")] ∧
    (onSubmit sampleEnv initialState).1.secretId = initialState.secretId ∧
    (onSubmit sampleEnv initialState).1.encryptionKey = initialState.encryptionKey ∧
    (onSubmit sampleEnv initialState).1.creatingSecret = initialState.creatingSecret :=
  C1_onSubmit_empty_text sampleEnv initialState rfl

/-! ## Successful submission -/

/-- C2: when the text is non-empty and the create-secret request made by
`onSubmit` is answered with status 201 and id `i`, the state after `onSubmit` has
`secretId = i` and retains the key returned by `generateKey` for this attempt
(which is not the key the cipher was given, whenever the password is non-empty),
so that `getSecretURL()` is `<origin>/secret/<i>#encryption_key=<key>`; this
holds for every password. -/
theorem C2_onSubmit_created (env : Env) (s : State) (i : String)
    (htext : s.form.values.text ≠ "")
    (hresp : ∀ b, Call.createSecret b ∈ (onSubmit env s).2 →
      (env.createSecret b).statusCode = 201 ∧ (env.createSecret b).id = i) :
    Call.generateKey s.form.values.password ∈ (onSubmit env s).2 ∧
    (onSubmit env s).1.secretId = i ∧
    (onSubmit env s).1.encryptionKey = env.generateKey s.form.values.password ∧
    (s.form.values.password ≠ "" →
      (onSubmit env s).1.encryptionKey
        ≠ env.generateKey s.form.values.password ++ s.form.values.password) ∧
    getSecretURL env (onSubmit env s).1 true
      = env.origin ++ "/secret/" ++ i ++ "#encryption_key="
          ++ env.generateKey s.form.values.password := by
  have hb := (hresp _ ((mem_onSubmit_createSecret env s htext _).mpr rfl))
  rw [onSubmit_fst env s htext, onSubmit_snd env s htext]
  simp only [afterResponse, hb.1, hb.2, getSecretURL]
  refine ⟨by simp [callsBeforeCreate], ?_, ?_, ?_, ?_⟩ <;> simp
  exact ne_append_of_ne_empty _ _

theorem C2_onSubmit_created_witness :
    sampleState.form.values.text ≠ "" ∧
    sampleState.form.values.password ≠ "" ∧
    (onSubmit sampleEnv sampleState).1.secretId = "abc123" ∧
    (onSubmit sampleEnv sampleState).1.encryptionKey = "k3y" ∧
    getSecretURL sampleEnv (onSubmit sampleEnv sampleState).1 true
      = "https://example.org/secret/abc123#encryption_key=k3y" :=
  have h := C2_onSubmit_created sampleEnv sampleState "abc123" (by decide)
    (fun _ _ => ⟨rfl, rfl⟩)
  ⟨by decide, by decide, h.2.1, h.2.2.1, h.2.2.2.2⟩

/-! ## The share link -/

/-- C3 (counterexample): with the server-issued id `encryption_key=`, the link
without the key, `getSecretURL(false)`, contains the substring `encryption_key=`. -/
theorem C3_getSecretURL_false_contains_marker :
    getSecretURL sampleEnv { initialState with secretId := "encryption_key=" } false
      = "https://example.org/secret/encryption_key=" ∧
    containsSubstr
      (getSecretURL sampleEnv { initialState with secretId := "encryption_key=" } false)
      "encryption_key=" := by
  decide

/-- C3 (amended): `getSecretURL(false)` is `<origin>/secret/<secretId>` and contains
`encryption_key=` exactly when the origin or the secret id already contains it;
`getSecretURL(true)` always contains it, is `getSecretURL(false)` followed by
`#encryption_key=` and the retained key, and that key is the only text that can
follow this prefix. -/
theorem C3_getSecretURL_key_segment (env : Env) (s : State) :
    getSecretURL env s false = env.origin ++ "/secret/" ++ s.secretId ∧
    (containsSubstr (getSecretURL env s false) "encryption_key=" ↔
      containsSubstr env.origin "encryption_key=" ∨
        containsSubstr s.secretId "encryption_key=") ∧
    containsSubstr (getSecretURL env s true) "encryption_key=" ∧
    getSecretURL env s true
      = getSecretURL env s false ++ "#encryption_key=" ++ s.encryptionKey ∧
    (∀ k : String, getSecretURL env s true
        = getSecretURL env s false ++ "#encryption_key=" ++ k → k = s.encryptionKey) := by
  refine ⟨rfl, ?_, ?_, rfl, ?_⟩
  · exact containsSubstr_path_iff env.origin s.secretId "encryption_key=" (by decide) (by decide)
  · refine ⟨(env.origin ++ "/secret/" ++ s.secretId).data ++ ['#'], s.encryptionKey.data, ?_⟩
    have hm : "#encryption_key=".data = '#' :: "encryption_key=".data := rfl
    simp [getSecretURL, hm]
  · intro k hk
    simp only [getSecretURL, Bool.not_true, Bool.not_false, Bool.false_eq_true, if_false,
      if_true] at hk
    have := congrArg String.data hk
    simp only [String.data_append, List.append_assoc] at this
    exact (String.ext (List.append_cancel_left (List.append_cancel_left
      (List.append_cancel_left (List.append_cancel_left this))))).symm

/-- C4 (counterexample): with an empty `secretId`, `getSecretURL` does not fail; it
returns the link `<origin>/secret/` with an empty identifier, with and without
the key. -/
theorem C4_getSecretURL_empty_secretId_returns :
    getSecretURL sampleEnv initialState false = "https://example.org/secret/" ∧
    getSecretURL sampleEnv initialState true
      = "https://example.org/secret/#encryption_key=" := by
  decide

/-- C4 (amended): `getSecretURL` has no guard on `secretId`: in a state whose
`secretId` is empty it returns `<origin>/secret/` when the key is withheld and
`<origin>/secret/#encryption_key=<key>` otherwise. -/
theorem C4_getSecretURL_empty_secretId (env : Env) (s : State) (h : s.secretId = "") :
    getSecretURL env s false = env.origin ++ "/secret/" ∧
    getSecretURL env s true
      = env.origin ++ "/secret/" ++ "#encryption_key=" ++ s.encryptionKey := by
  simp [getSecretURL, h]

theorem C4_getSecretURL_empty_secretId_witness :
    initialState.secretId = "" ∧
    getSecretURL sampleEnv initialState false = sampleEnv.origin ++ "/secret/" ∧
    getSecretURL sampleEnv initialState true
      = sampleEnv.origin ++ "/secret/" ++ "#encryption_key=" ++ initialState.encryptionKey :=
  ⟨rfl, C4_getSecretURL_empty_secretId sampleEnv initialState rfl⟩

/-! ## The request body -/

/-- C5: for a submission with non-empty text, every call of the cipher is made
with the key `generateKey(password) ++ password`, and the body handed to
`createSecret` has `text` and `title` equal to `encrypt` of the form's text and
title under that key, and, when `zipFiles` yields an archive, a file content equal
to `encrypt` of the archive under the same key. -/
theorem C5_onSubmit_effective_key (env : Env) (s : State)
    (htext : s.form.values.text ≠ "") :
    (∀ x k, Call.encrypt x k ∈ (onSubmit env s).2 →
      k = env.generateKey s.form.values.password ++ s.form.values.password) ∧
    ∃ b, createSecretCalls (onSubmit env s).2 = [b] ∧
      b.text = env.encrypt s.form.values.text
        (env.generateKey s.form.values.password ++ s.form.values.password) ∧
      b.title = env.encrypt s.form.values.title
        (env.generateKey s.form.values.password ++ s.form.values.password) ∧
      (∀ zip, env.zipFiles s.form.values.files = some zip →
        b.files.map FileEntry.content
          = [env.encrypt zip
              (env.generateKey s.form.values.password ++ s.form.values.password)]) := by
  refine ⟨?_, submittedBody env s, createSecretCalls_onSubmit env s htext, rfl, rfl, ?_⟩
  · intro x k hx
    rw [onSubmit_snd env s htext] at hx
    unfold callsBeforeCreate at hx
    cases hz : env.zipFiles s.form.values.files <;> simp [hz] at hx <;> aesop
  · intro zip hz
    simp [submittedBody, hz]

theorem C5_onSubmit_effective_key_witness :
    sampleStateWithFile.form.values.text ≠ "" ∧
    ∃ b, createSecretCalls (onSubmit sampleEnv sampleStateWithFile).2 = [b] ∧
      b.text = "enc(hello,k3yhunter2)" ∧
      b.title = "enc(,k3yhunter2)" ∧
      b.files.map FileEntry.content = ["enc(ZIP,k3yhunter2)"] :=
  have h := (C5_onSubmit_effective_key sampleEnv sampleStateWithFile (by decide)).2
  ⟨by decide, h.elim fun b hb => ⟨b, hb.1, hb.2.1, hb.2.2.1, hb.2.2.2 "ZIP" rfl⟩⟩

/-- C6 (counterexample): the body sent for a form whose password is `hunter2` has
its `password` field equal to `hunter2`, and the bodies of two submissions that
differ only in the password differ in that field. -/
theorem C6_body_carries_password :
    sampleState.form.values.password = "hunter2" ∧
    (createSecretCalls (onSubmit sampleEnv sampleState).2).map Body.password
      = ["hunter2"] ∧
    sampleStateOtherPassword.form.values
      = { sampleState.form.values with password := "correct horse" } ∧
    (createSecretCalls (onSubmit sampleEnv sampleStateOtherPassword).2).map Body.password
      = ["correct horse"] := by
  decide

/-- C6 (amended): for a submission with non-empty text the body handed to
`createSecret` carries the form's password verbatim in its `password` field; its
`text` and `title` are `encrypt` of the form's text and title under the key
`generateKey(password) ++ password`, its `files` are empty or the single entry
`application/zip`, `.zip`, `encrypt(archive, key)`, and `ttl`, `allowedIp`,
`preventBurn` and `maxViews` are the form's values: the key enters the body only
as the key argument of `encrypt`, so that under ciphers that ignore their key the
`text`, `title` and `files` sent do not depend on the key generator or on the
password. Two submissions that differ only in the password, under any two
environments, send bodies with the same `ttl`, `allowedIp`, `preventBurn` and
`maxViews`. -/
theorem C6_body_plain_fields (env₁ env₂ : Env) (s₁ s₂ : State)
    (h₁ : s₁.form.values.text ≠ "") (h₂ : s₂.form.values.text ≠ "")
    (hsame : s₂.form.values = { s₁.form.values with password := s₂.form.values.password }) :
    ∃ b₁ b₂, createSecretCalls (onSubmit env₁ s₁).2 = [b₁] ∧
      createSecretCalls (onSubmit env₂ s₂).2 = [b₂] ∧
      b₁.password = s₁.form.values.password ∧ b₂.password = s₂.form.values.password ∧
      b₁.ttl = s₁.form.values.ttl ∧ b₁.allowedIp = s₁.form.values.allowedIp ∧
      b₁.preventBurn = s₁.form.values.preventBurn ∧ b₁.maxViews = s₁.form.values.maxViews ∧
      b₁.ttl = b₂.ttl ∧ b₁.allowedIp = b₂.allowedIp ∧
      b₁.preventBurn = b₂.preventBurn ∧ b₁.maxViews = b₂.maxViews ∧
      b₁.text = env₁.encrypt s₁.form.values.text
        (env₁.generateKey s₁.form.values.password ++ s₁.form.values.password) ∧
      b₁.title = env₁.encrypt s₁.form.values.title
        (env₁.generateKey s₁.form.values.password ++ s₁.form.values.password) ∧
      b₁.files = (env₁.zipFiles s₁.form.values.files).toList.map (fun zip =>
        { type := "application/zip", ext := ".zip",
          content := env₁.encrypt zip
            (env₁.generateKey s₁.form.values.password ++ s₁.form.values.password) }) ∧
      b₂.text = env₂.encrypt s₂.form.values.text
        (env₂.generateKey s₂.form.values.password ++ s₂.form.values.password) ∧
      b₂.title = env₂.encrypt s₂.form.values.title
        (env₂.generateKey s₂.form.values.password ++ s₂.form.values.password) ∧
      b₂.files = (env₂.zipFiles s₂.form.values.files).toList.map (fun zip =>
        { type := "application/zip", ext := ".zip",
          content := env₂.encrypt zip
            (env₂.generateKey s₂.form.values.password ++ s₂.form.values.password) }) ∧
      ((∀ x k k', env₁.encrypt x k = env₂.encrypt x k') →
        env₁.zipFiles s₁.form.values.files = env₂.zipFiles s₁.form.values.files →
        b₁.text = b₂.text ∧ b₁.title = b₂.title ∧ b₁.files = b₂.files) := by
  have htext : s₂.form.values.text = s₁.form.values.text := by rw [hsame]
  have htitle : s₂.form.values.title = s₁.form.values.title := by rw [hsame]
  have hfiles : s₂.form.values.files = s₁.form.values.files := by rw [hsame]
  have hf : ∀ (env : Env) (s : State), (submittedBody env s).files
      = (env.zipFiles s.form.values.files).toList.map (fun zip =>
        { type := "application/zip", ext := ".zip",
          content := env.encrypt zip
            (env.generateKey s.form.values.password ++ s.form.values.password) }) := by
    intro env s
    cases hz : env.zipFiles s.form.values.files <;> simp [submittedBody, hz]
  refine ⟨submittedBody env₁ s₁, submittedBody env₂ s₂, createSecretCalls_onSubmit env₁ s₁ h₁,
    createSecretCalls_onSubmit env₂ s₂ h₂, rfl, rfl, rfl, rfl, rfl, rfl, ?_, ?_, ?_, ?_,
    rfl, rfl, hf env₁ s₁, rfl, rfl, hf env₂ s₂, ?_⟩
  · simp only [submittedBody]; rw [hsame]
  · simp only [submittedBody]; rw [hsame]
  · simp only [submittedBody]; rw [hsame]
  · simp only [submittedBody]; rw [hsame]
  · intro henc hzip
    refine ⟨?_, ?_, ?_⟩
    · simp only [submittedBody, htext]; exact henc _ _ _
    · simp only [submittedBody, htitle]; exact henc _ _ _
    · rw [hf env₁ s₁, hf env₂ s₂, hfiles, hzip]
      cases env₂.zipFiles s₁.form.values.files with
      | none => rfl
      | some zip => simp [henc zip _ (env₂.generateKey s₂.form.values.password
          ++ s₂.form.values.password)]

theorem C6_body_plain_fields_witness :
    (∃ b₁ b₂, createSecretCalls (onSubmit sampleEnv sampleStateWithFile).2 = [b₁] ∧
      createSecretCalls
        (onSubmit (sampleEnvWith failureResponse) sampleStateWithFileOtherPassword).2
          = [b₂] ∧
      b₁.password = "hunter2" ∧ b₂.password = "correct horse" ∧
      b₁.ttl = b₂.ttl ∧ b₁.allowedIp = b₂.allowedIp ∧
      b₁.preventBurn = b₂.preventBurn ∧ b₁.maxViews = b₂.maxViews ∧
      b₁.text = "enc(hello,k3yhunter2)" ∧ b₂.text = "enc(hello,k3ycorrect horse)" ∧
      b₁.files = [{ type := "application/zip", ext := ".zip",
                    content := "enc(ZIP,k3yhunter2)" }]) ∧
    (∃ b₁ b₂,
      createSecretCalls (onSubmit (sampleEnvKeyless "k1") sampleStateWithFile).2 = [b₁] ∧
      createSecretCalls
        (onSubmit (sampleEnvKeyless "k2") sampleStateWithFileOtherPassword).2 = [b₂] ∧
      b₁.text = b₂.text ∧ b₁.title = b₂.title ∧ b₁.files = b₂.files) :=
  ⟨(C6_body_plain_fields sampleEnv (sampleEnvWith failureResponse) sampleStateWithFile
      sampleStateWithFileOtherPassword (by decide) (by decide) (by decide)).elim
    fun b₁ h => h.elim fun b₂ h =>
      ⟨b₁, b₂, h.1, h.2.1, h.2.2.1, h.2.2.2.1, h.2.2.2.2.2.2.2.2.1, h.2.2.2.2.2.2.2.2.2.1,
        h.2.2.2.2.2.2.2.2.2.2.1, h.2.2.2.2.2.2.2.2.2.2.2.1,
        h.2.2.2.2.2.2.2.2.2.2.2.2.1,
        h.2.2.2.2.2.2.2.2.2.2.2.2.2.2.2.1,
        h.2.2.2.2.2.2.2.2.2.2.2.2.2.2.1⟩,
   (C6_body_plain_fields (sampleEnvKeyless "k1") (sampleEnvKeyless "k2") sampleStateWithFile
      sampleStateWithFileOtherPassword (by decide) (by decide) (by decide)).elim
    fun b₁ h => h.elim fun b₂ h =>
      ⟨b₁, b₂, h.1, h.2.1,
        h.2.2.2.2.2.2.2.2.2.2.2.2.2.2.2.2.2.2 (fun _ _ _ => rfl) rfl⟩⟩

/-- C7: for a submission with non-empty text, the `files` of the body handed to
`createSecret` is empty when `zipFiles` yields no archive, and is the single entry
with type `application/zip`, ext `.zip` and content `encrypt(archive, key)`, the
key being `generateKey(password) ++ password`, when it yields one; it never has
more than one entry, however many files are selected. -/
theorem C7_onSubmit_files (env : Env) (s : State) (htext : s.form.values.text ≠ "") :
    ∃ b, createSecretCalls (onSubmit env s).2 = [b] ∧
      (env.zipFiles s.form.values.files = none → b.files = []) ∧
      (∀ zip, env.zipFiles s.form.values.files = some zip →
        b.files = [{ type := "application/zip", ext := ".zip",
                     content := env.encrypt zip
                       (env.generateKey s.form.values.password ++ s.form.values.password) }]) ∧
      b.files.length ≤ 1 := by
  refine ⟨submittedBody env s, createSecretCalls_onSubmit env s htext, ?_, ?_, ?_⟩
  · intro hz
    simp [submittedBody, hz]
  · intro zip hz
    simp [submittedBody, hz]
  · cases hz : env.zipFiles s.form.values.files <;> simp [submittedBody, hz]

theorem C7_onSubmit_files_witness :
    sampleStateWithFile.form.values.text ≠ "" ∧
    ∃ b, createSecretCalls (onSubmit sampleEnv sampleStateWithFile).2 = [b] ∧
      b.files = [{ type := "application/zip", ext := ".zip",
                   content := "enc(ZIP,k3yhunter2)" }] :=
  ⟨by decide, (C7_onSubmit_files sampleEnv sampleStateWithFile (by decide)).elim
    fun b hb => ⟨b, hb.1, hb.2.2.1 "ZIP" rfl⟩⟩

/-! ## Burning -/

/-- C8: in a state whose `secretId` is empty, `onBurn` makes no call (in
particular none to `burnSecret`) and returns the state as it is, without the
reset; so running it a second time gives the same result as running it once. -/
theorem C8_onBurn_without_secret (s : State) (h : s.secretId = "") :
    (onBurn s).2 = [] ∧ (onBurn s).1 = s ∧ onBurn (onBurn s).1 = onBurn s := by
  simp [onBurn, h]

theorem C8_onBurn_without_secret_witness :
    sampleState.secretId = "" ∧
    (onBurn sampleState).2 = [] ∧ (onBurn sampleState).1 = sampleState ∧
    onBurn (onBurn sampleState).1 = onBurn sampleState :=
  ⟨rfl, C8_onBurn_without_secret sampleState rfl⟩

/-! ## Rejected and failed submissions -/

/-- C9 (counterexample): a 403 answer with `error = "Forbidden"` and the message
`sign in to use this lifetime` sets the banner to `Forbidden`, not to the
message of the answer. -/
theorem C9_banner_is_not_the_message :
    forbiddenResponse.statusCode = 403 ∧
    (onSubmit (sampleEnvWith forbiddenResponse) sampleState).1.error = "Forbidden" ∧
    (onSubmit (sampleEnvWith forbiddenResponse) sampleState).1.error
      ≠ forbiddenResponse.message := by
  decide

/-- C9 (amended): when the text is non-empty and the create-secret request is
answered with status 403, the page-level error is set verbatim to the `error`
field of that answer, exactly one create-secret call is made, and `secretId` is
left as it was (empty if it was empty). -/
theorem C9_onSubmit_forbidden (env : Env) (s : State) (htext : s.form.values.text ≠ "")
    (hresp : ∀ b, Call.createSecret b ∈ (onSubmit env s).2 →
      (env.createSecret b).statusCode = 403) :
    ∃ b, createSecretCalls (onSubmit env s).2 = [b] ∧
      (onSubmit env s).1.error = (env.createSecret b).error ∧
      (onSubmit env s).1.secretId = s.secretId ∧
      (s.secretId = "" → (onSubmit env s).1.secretId = "") := by
  have hb := hresp _ ((mem_onSubmit_createSecret env s htext _).mpr rfl)
  refine ⟨submittedBody env s, createSecretCalls_onSubmit env s htext, ?_, ?_, ?_⟩ <;>
    rw [onSubmit_fst env s htext] <;> simp [afterResponse, hb]

theorem C9_onSubmit_forbidden_witness :
    sampleState.form.values.text ≠ "" ∧
    ∃ b, createSecretCalls (onSubmit (sampleEnvWith forbiddenResponse) sampleState).2 = [b] ∧
      (onSubmit (sampleEnvWith forbiddenResponse) sampleState).1.error
        = ((sampleEnvWith forbiddenResponse).createSecret b).error ∧
      (onSubmit (sampleEnvWith forbiddenResponse) sampleState).1.secretId = "" :=
  ⟨by decide,
    (C9_onSubmit_forbidden (sampleEnvWith forbiddenResponse) sampleState (by decide)
      (fun _ _ => rfl)).elim fun b hb => ⟨b, hb.1, hb.2.1, hb.2.2.2 rfl⟩⟩

/-- C10 (counterexample): a 500 answer with `error = "Internal Server Error"` and
the message `database unavailable` puts `Internal Server Error` on the files
field, not the message of the answer. -/
theorem C10_files_error_is_not_the_message :
    failureResponse.statusCode ≠ 201 ∧ failureResponse.statusCode ≠ 403 ∧
    failureResponse.message ≠ "request file too large, please check multipart config" ∧
    (onSubmit (sampleEnvWith failureResponse) sampleState).1.form.errors
      = [("files", "Internal Server Error")] ∧
    (onSubmit (sampleEnvWith failureResponse) sampleState).1.form.errors
      ≠ [("files", failureResponse.message)] := by
  decide

/-- C10 (amended): when the text is non-empty and the create-secret request is
answered with a status other than 201 and 403, the form's errors become the
single files error `The file size is too large` if the answer's `message` is
`request file too large, please check multipart config`, and otherwise the single
files error given by the `error` field of the answer; in both cases `secretId`
and the retained key are left as they were (unset if they were unset), the banner
is not touched, and `creatingSecret` is false. -/
theorem C10_onSubmit_failed (env : Env) (s : State) (htext : s.form.values.text ≠ "")
    (hresp : ∀ b, Call.createSecret b ∈ (onSubmit env s).2 →
      (env.createSecret b).statusCode ≠ 201 ∧ (env.createSecret b).statusCode ≠ 403) :
    ∃ b, createSecretCalls (onSubmit env s).2 = [b] ∧
      ((env.createSecret b).message
          = "request file too large, please check multipart config" →
        (onSubmit env s).1.form.errors = [("files", "The file size is too large")]) ∧
      ((env.createSecret b).message
          ≠ "request file too large, please check multipart config" →
        (onSubmit env s).1.form.errors = [("files", (env.createSecret b).error)]) ∧
      (onSubmit env s).1.secretId = s.secretId ∧
      (onSubmit env s).1.encryptionKey = s.encryptionKey ∧
      (s.secretId = "" → s.encryptionKey = "" →
        (onSubmit env s).1.secretId = "" ∧ (onSubmit env s).1.encryptionKey = "") ∧
      (onSubmit env s).1.error = s.error ∧
      (onSubmit env s).1.creatingSecret = false := by
  have hb := hresp _ ((mem_onSubmit_createSecret env s htext _).mpr rfl)
  refine ⟨submittedBody env s, createSecretCalls_onSubmit env s htext, ?_, ?_, ?_, ?_, ?_, ?_, ?_⟩
    <;> rw [onSubmit_fst env s htext] <;> simp [afterResponse, hb, Form.setErrors]
  all_goals intros; simp_all

theorem C10_onSubmit_failed_witness :
    sampleState.form.values.text ≠ "" ∧
    ∃ b, createSecretCalls (onSubmit (sampleEnvWith tooLargeResponse) sampleState).2 = [b] ∧
      (onSubmit (sampleEnvWith tooLargeResponse) sampleState).1.form.errors
        = [("files", "The file size is too large")] ∧
      (onSubmit (sampleEnvWith tooLargeResponse) sampleState).1.secretId = "" ∧
      (onSubmit (sampleEnvWith tooLargeResponse) sampleState).1.encryptionKey = "" ∧
      (onSubmit (sampleEnvWith tooLargeResponse) sampleState).1.creatingSecret = false :=
  ⟨by decide,
    (C10_onSubmit_failed (sampleEnvWith tooLargeResponse) sampleState (by decide)
      (fun _ _ => ⟨by simp [sampleEnvWith, tooLargeResponse],
        by simp [sampleEnvWith, tooLargeResponse]⟩)).elim fun b hb =>
        ⟨b, hb.1, hb.2.1 rfl, (hb.2.2.2.2.2.1 rfl rfl).1, (hb.2.2.2.2.2.1 rfl rfl).2,
          hb.2.2.2.2.2.2.2⟩⟩

/-! ## Password protection switched on and off -/

/-- C11: from a state in which password protection is off, switching it on (the
password field becomes the generated password) and then off again leaves
`enablePassword` false and the password field empty, as does switching it off
from any state in which it is on; a submission made then, with
non-empty text, calls `generateKey` once, hands the cipher the key it returned and
nothing appended for the text, the title and the archive, sends an empty
`password`, and on a 201 answer retains that same key. -/
theorem C11_password_on_then_off (env : Env) (g₁ g₂ : String) (s : State)
    (hoff : s.enablePassword = false) :
    (togglePassword g₁ s).enablePassword = true ∧
    (togglePassword g₁ s).form.values.password = g₁ ∧
    (togglePassword g₂ (togglePassword g₁ s)).enablePassword = false ∧
    (togglePassword g₂ (togglePassword g₁ s)).form.values.password = "" ∧
    (∀ s' : State, s'.enablePassword = true →
      (togglePassword g₂ s').enablePassword = false ∧
      (togglePassword g₂ s').form.values.password = "") ∧
    (s.form.values.text ≠ "" →
      (∀ x k, Call.encrypt x k ∈ (onSubmit env (togglePassword g₂ (togglePassword g₁ s))).2 →
        k = env.generateKey "") ∧
      (∃ b, createSecretCalls (onSubmit env (togglePassword g₂ (togglePassword g₁ s))).2 = [b] ∧
        b.text = env.encrypt s.form.values.text (env.generateKey "") ∧
        b.title = env.encrypt s.form.values.title (env.generateKey "") ∧
        b.password = "" ∧
        (∀ zip, env.zipFiles s.form.values.files = some zip →
          b.files.map FileEntry.content = [env.encrypt zip (env.generateKey "")]) ∧
        ((env.createSecret b).statusCode = 201 →
          (onSubmit env (togglePassword g₂ (togglePassword g₁ s))).1.encryptionKey
            = env.generateKey ""))) := by
  have hv : (togglePassword g₂ (togglePassword g₁ s)).form.values
      = { s.form.values with password := "" } := by
    simp [togglePassword, enablePasswordEffect, onEnablePassword, hoff,
      Form.setFieldValuePassword]
  refine ⟨?_, ?_, ?_, ?_, ?_, ?_⟩
  · simp [togglePassword, enablePasswordEffect, onEnablePassword, hoff]
  · simp [togglePassword, enablePasswordEffect, onEnablePassword, hoff,
      Form.setFieldValuePassword]
  · simp [togglePassword, enablePasswordEffect, onEnablePassword, hoff]
  · rw [hv]
  · intro s' hon
    simp [togglePassword, enablePasswordEffect, onEnablePassword, hon,
      Form.setFieldValuePassword]
  · intro htext
    have htext' : (togglePassword g₂ (togglePassword g₁ s)).form.values.text ≠ "" := by
      rw [hv]; exact htext
    refine ⟨?_, submittedBody env _, createSecretCalls_onSubmit env _ htext', ?_, ?_, ?_, ?_, ?_⟩
    · intro x k hx
      rw [onSubmit_snd env _ htext'] at hx
      unfold callsBeforeCreate at hx
      rw [hv] at hx
      cases hz : env.zipFiles s.form.values.files <;> simp [hz] at hx <;> aesop
    · simp [submittedBody, hv]
    · simp [submittedBody, hv]
    · simp [submittedBody, hv]
    · intro zip hz
      simp [submittedBody, hv, hz]
    · intro h201
      rw [onSubmit_fst env _ htext']
      simp [afterResponse, h201, hv]

theorem C11_password_on_then_off_witness :
    sampleStateNoPassword.enablePassword = false ∧
    (togglePassword "g2" (togglePassword "g1" sampleStateNoPassword)).form.values.password
      = "" ∧
    ∀ x k,
      Call.encrypt x k ∈
        (onSubmit sampleEnv (togglePassword "g2" (togglePassword "g1" sampleStateNoPassword))).2 →
      k = "k3y" :=
  have h := C11_password_on_then_off sampleEnv "g1" "g2" sampleStateNoPassword rfl
  ⟨rfl, h.2.2.2.1, (h.2.2.2.2.2 (by decide)).1⟩

/-! ## Reset -/

/-- C12: from every state, `reset` and `onNewSecret`, and `onBurn` when `secretId`
is non-empty (after one `burnSecret` call for that id), yield the state of the
first render: form values `text ''`, `title ''`, `maxViews 1`, `files []`,
`password ''`, `ttl 259200`, `allowedIp ''`, `preventBurn false`, no field errors,
`text ''`, `ttl 259200`, `enablePassword false`, `secretId ''`, encryption key
`''`, `creatingSecret false`, `error ''`; the password effect that follows leaves
it so, and `reset` is idempotent. -/
theorem C12_reset_is_initial (s : State) :
    initialState =
      { form := { values := { text := "", title := "", maxViews := 1, files := [],
                              password := "", ttl := 259200, allowedIp := "",
                              preventBurn := false },
                  errors := [] },
        text := "", ttl := 259200, enablePassword := false, secretId := "",
        encryptionKey := "", creatingSecret := false, error := "" } ∧
    reset s = initialState ∧
    onNewSecret s = initialState ∧
    (s.secretId ≠ "" →
      (onBurn s).1 = initialState ∧ (onBurn s).2 = [Call.burnSecret s.secretId]) ∧
    (∀ g, enablePasswordEffect g (reset s) = initialState) ∧
    reset (reset s) = reset s := by
  refine ⟨rfl, rfl, rfl, ?_, fun _ => rfl, rfl⟩
  intro h
  simp [onBurn, h, reset, initialState, Form.reset, Form.clearErrors]

theorem C12_reset_is_initial_witness :
    sampleStateRevealed.secretId ≠ "" ∧
    reset sampleStateRevealed = initialState ∧
    onNewSecret sampleStateRevealed = initialState ∧
    (onBurn sampleStateRevealed).1 = initialState ∧
    (onBurn sampleStateRevealed).2 = [Call.burnSecret "abc123"] :=
  have h := C12_reset_is_initial sampleStateRevealed
  ⟨by decide, h.2.1, h.2.2.1, (h.2.2.2.1 (by decide)).1, (h.2.2.2.1 (by decide)).2⟩

/-! ## Removing a file -/

theorem splice_one {α : Type} (xs : List α) (i : Nat) :
    splice xs (i : Int) 1 = xs.eraseIdx i := by
  unfold splice
  have hneg : ¬ ((i : Int) < 0) := by omega
  simp only [hneg, if_false, Int.toNat_ofNat]
  rw [List.eraseIdx_eq_take_drop_succ]
  by_cases h : i < xs.length
  · have h1 : min i xs.length = i := by omega
    have h2 : min 1 (xs.length - i) = 1 := by omega
    rw [h1, h2]
  · have h1 : min i xs.length = xs.length := by omega
    rw [h1]
    simp only [Nat.sub_self, Nat.min_zero, Nat.add_zero, List.take_length, List.drop_length]
    rw [List.take_of_length_le (by omega), List.drop_of_length_le (by omega)]

theorem removeFileInMemory_files (m : ArrayMemory) (index : Int) :
    (removeFileInMemory m index).files = m.arrays.length := rfl

theorem removeFileInMemory_read_new (m : ArrayMemory) (index : Int) :
    (removeFileInMemory m index).read (removeFileInMemory m index).files
      = splice (m.read m.files) index 1 := by
  simp [removeFileInMemory, ArrayMemory.read]

theorem removeFileInMemory_old (m : ArrayMemory) (index : Int) (a : Nat)
    (ha : a < m.arrays.length) :
    (removeFileInMemory m index).arrays[a]? = m.arrays[a]? := by
  have hne : m.arrays.length ≠ a := by omega
  simp only [removeFileInMemory]
  rw [List.getElem?_set_ne hne, List.getElem?_append_left ha]

/-- C13: for every files list and every index `i ≥ 0`, `removeFile(i)` sets the
files field to the list with the element at position `i` erased, the other form
values being kept: for `i < length` the new list is one shorter, agrees with the
old one before `i` and is the old one shifted by one from `i` on; for
`i ≥ length` the list is unchanged. On references, the files field is made to
refer to a newly allocated array holding that list, while the array it referred
to before, like every array that existed before the call, still has its elements:
the previous list is not mutated. -/
theorem C13_removeFile (s : State) (i : Nat) (m : ArrayMemory) :
    (removeFile s i).form.values
      = { s.form.values with files := s.form.values.files.eraseIdx i } ∧
    (removeFile s i).form.values.files
      = s.form.values.files.take i ++ s.form.values.files.drop (i + 1) ∧
    (i < s.form.values.files.length →
      (removeFile s i).form.values.files.length + 1 = s.form.values.files.length ∧
      (∀ j, j < i → (removeFile s i).form.values.files[j]? = s.form.values.files[j]?) ∧
      (∀ j, i ≤ j →
        (removeFile s i).form.values.files[j]? = s.form.values.files[j + 1]?)) ∧
    (s.form.values.files.length ≤ i →
      (removeFile s i).form.values.files = s.form.values.files) ∧
    (m.files < m.arrays.length → m.read m.files = s.form.values.files →
      (removeFileInMemory m i).read (removeFileInMemory m i).files
        = (removeFile s i).form.values.files ∧
      (removeFileInMemory m i).files ≠ m.files ∧
      (removeFileInMemory m i).read m.files = s.form.values.files ∧
      (∀ a, a < m.arrays.length → (removeFileInMemory m i).arrays[a]? = m.arrays[a]?)) := by
  have hf : (removeFile s i).form.values.files = s.form.values.files.eraseIdx i := by
    simp [removeFile, Form.setFieldValueFiles, splice_one]
  refine ⟨?_, ?_, ?_, ?_, ?_⟩
  · simp [removeFile, Form.setFieldValueFiles, splice_one]
  · rw [hf, List.eraseIdx_eq_take_drop_succ]
  · intro hi
    rw [hf]
    refine ⟨List.length_eraseIdx_add_one hi, ?_, ?_⟩
    · intro j hj
      exact List.getElem?_eraseIdx_of_lt _ _ _ hj
    · intro j hj
      exact List.getElem?_eraseIdx_of_ge _ _ _ hj
  · intro hi
    rw [hf, List.eraseIdx_of_length_le hi]
  · intro hm hrep
    refine ⟨?_, ?_, ?_, ?_⟩
    · rw [removeFileInMemory_read_new, hrep, hf, splice_one]
    · rw [removeFileInMemory_files]; omega
    · rw [← hrep]
      simp only [ArrayMemory.read]
      rw [removeFileInMemory_old m i m.files hm]
    · intro a ha
      exact removeFileInMemory_old m i a ha

theorem C13_removeFile_witness :
    (1 : Nat) < sampleStateThreeFiles.form.values.files.length ∧
    (removeFile sampleStateThreeFiles (1 : Nat)).form.values.files
      = [{ name := "a", content := "A" }, { name := "c", content := "C" }] ∧
    (removeFile sampleStateThreeFiles (1 : Nat)).form.values.files.length + 1
      = sampleStateThreeFiles.form.values.files.length ∧
    sampleStateThreeFiles.form.values.files.length = 3 ∧
    sampleMemory.read sampleMemory.files = sampleStateThreeFiles.form.values.files ∧
    (removeFileInMemory sampleMemory (1 : Nat)).read
        (removeFileInMemory sampleMemory (1 : Nat)).files
      = [{ name := "a", content := "A" }, { name := "c", content := "C" }] ∧
    (removeFileInMemory sampleMemory (1 : Nat)).read sampleMemory.files
      = [{ name := "a", content := "A" }, { name := "b", content := "B" },
         { name := "c", content := "C" }] :=
  have h := C13_removeFile sampleStateThreeFiles 1 sampleMemory
  have hm := h.2.2.2.2 (by decide) rfl
  ⟨by decide, h.2.1, (h.2.2.1 (by decide)).1, rfl, rfl, hm.1.trans h.2.1, hm.2.2.1⟩

end Hemmelig
